import Mathlib

/-!
Verification of the SolRaiser campaign escrow design.

The repository ships the on-chain program's test suite
(src/solraiser/tests/solraiser.ts), the browser frontend and an indexer
schema; the on-chain lifecycle engine itself (create_campaign / donate /
withdraw) is referenced by the tests but its source is not included, so
the engine below is modelled from the specification.  The client-side
address derivation (getCampaignAddress in the tests, createCampaign in
src/unnamed/part_000) is embedded directly from the TypeScript sources.

Errors are modelled in the Except monad: a rejected operation returns an
error value and produces no successor configuration, which is exactly the
spec's atomic all-or-nothing transaction semantics (a failed call leaves
every record and every ledger balance untouched by construction).
-/

namespace SolRaiser

/-- Largest value representable in an unsigned 64-bit integer. -/
def U64_MAX : Nat := 2 ^ 64 - 1

/-- Modelled from the spec: the configured bound on `metadata_url` length
("a bounded-length opaque string ... validated only for length"); the
concrete bound is not given by the included sources. -/
def MAX_METADATA_LEN : Nat := 200

/-- Modelled from the spec: the storage-reservation deposit the host
environment charges the creator on open ("charges the creator the
storage-reservation cost on the Fund Ledger"); abstracted as a fixed
positive constant since the sources do not give the number. -/
def storageRent : Nat := 1

/-- The closed error taxonomy of the spec (section 7). -/
inductive Err where
  | InvalidGoal
  | DeadlineInPast
  | MetadataTooLong
  | AlreadyExists
  | NotFound
  | ZeroAmount
  | CampaignExpired
  | ArithmeticOverflow
  | Unauthorized
  | CampaignStillActive
  | GoalNotReached
  | InsufficientFunds
  deriving DecidableEq, Repr

/-- The Campaign Record: the sole persistent entity of the core. -/
structure Campaign where
  creator : Nat
  campaign_id : Nat
  goal_amount : Nat
  amount_raised : Nat
  deadline : Nat
  metadata_url : String
  deriving DecidableEq, Repr

/-- Fund Ledger accounts: user accounts (keyed by public key) and
campaign escrow accounts (keyed by the record's derived address, which
is a pure injective function of the (creator, campaign_id) pair). -/
inductive Account where
  | user (key : Nat)
  | camp (creator : Nat) (campaign_id : Nat)
  deriving DecidableEq, Repr

/-- A record's storage address: derived deterministically from the
(creator, campaign_id) pair, represented by the pair itself. -/
abbrev Addr := Nat × Nat

/-- A configuration: the Campaign Record Store, the external Fund Ledger
balances, and the Clock Oracle's current reading. -/
structure Config where
  records : Addr → Option Campaign
  ledger : Account → Nat
  now : Nat

/-- Replace the record stored at one address. -/
def setRecord (cfg : Config) (a : Addr) (r : Campaign) : Config :=
  { cfg with records := fun a2 => if a2 = a then some r else cfg.records a2 }

/-- Set the Fund Ledger balance of one account. -/
def setBal (cfg : Config) (acct : Account) (n : Nat) : Config :=
  { cfg with ledger := fun a2 => if a2 = acct then n else cfg.ledger a2 }

/-- Modelled from the spec: the Open operation of the Campaign Lifecycle
Engine (the on-chain create_campaign instruction, absent from src/).
Checks goal_amount > 0, deadline strictly in the future, metadata length,
and address freshness; charges the creator the storage deposit and
creates the record with amount_raised = 0. -/
def openCampaign (creator campaign_id goal_amount deadline : Nat)
    (metadata_url : String) (cfg : Config) : Except Err Config :=
  if goal_amount = 0 then .error .InvalidGoal
  else if deadline ≤ cfg.now then .error .DeadlineInPast
  else if MAX_METADATA_LEN < metadata_url.length then .error .MetadataTooLong
  else match cfg.records (creator, campaign_id) with
    | some _ => .error .AlreadyExists
    | none =>
      if cfg.ledger (.user creator) < storageRent then .error .InsufficientFunds
      else
        let cfg1 := setBal cfg (.user creator) (cfg.ledger (.user creator) - storageRent)
        .ok (setRecord cfg1 (creator, campaign_id)
          { creator := creator, campaign_id := campaign_id,
            goal_amount := goal_amount, amount_raised := 0,
            deadline := deadline, metadata_url := metadata_url })

/-- Modelled from the spec: the Fund operation (the on-chain donate
instruction, absent from src/).  A call at or past the deadline always
fails with CampaignExpired; a positive in-time donation is debited from
the donor, credited to the campaign's escrow balance, and added to
amount_raised with an overflow check that rejects rather than wraps. -/
def fund (donor : Nat) (addr : Addr) (amount : Nat) (cfg : Config) :
    Except Err Config :=
  match cfg.records addr with
  | none => .error .NotFound
  | some r =>
    if r.deadline ≤ cfg.now then .error .CampaignExpired
    else if amount = 0 then .error .ZeroAmount
    else if U64_MAX < r.amount_raised + amount then .error .ArithmeticOverflow
    else if cfg.ledger (.user donor) < amount then .error .InsufficientFunds
    else
      let cfg1 := setBal cfg (.user donor) (cfg.ledger (.user donor) - amount)
      let cfg2 := setBal cfg1 (.camp addr.1 addr.2)
        (cfg1.ledger (.camp addr.1 addr.2) + amount)
      .ok (setRecord cfg2 addr { r with amount_raised := r.amount_raised + amount })

/-- Modelled from the spec: the Release operation (the on-chain withdraw
instruction, absent from src/).  Only the record's creator, only at or
past the deadline, only with the goal reached; on success the entire
escrow balance moves to the creator and amount_raised resets to 0 in the
same atomic transition. -/
def release (caller : Nat) (addr : Addr) (cfg : Config) : Except Err Config :=
  match cfg.records addr with
  | none => .error .NotFound
  | some r =>
    if caller ≠ r.creator then .error .Unauthorized
    else if cfg.now < r.deadline then .error .CampaignStillActive
    else if r.amount_raised < r.goal_amount then .error .GoalNotReached
    else
      let bal := cfg.ledger (.camp addr.1 addr.2)
      let cfg1 := setBal cfg (.camp addr.1 addr.2) 0
      let cfg2 := setBal cfg1 (.user r.creator) (cfg1.ledger (.user r.creator) + bal)
      .ok (setRecord cfg2 addr { r with amount_raised := 0 })

/-- Load the record at an address (the Campaign Record Store's load). -/
def load (addr : Addr) (cfg : Config) : Except Err Campaign :=
  match cfg.records addr with
  | some r => .ok r
  | none => .error .NotFound

/-- One operation of the Campaign Lifecycle Engine. -/
inductive Op where
  | openOp (creator campaign_id goal_amount deadline : Nat) (metadata_url : String)
  | fundOp (donor : Nat) (addr : Addr) (amount : Nat)
  | releaseOp (caller : Nat) (addr : Addr)

/-- Dispatch one lifecycle operation against a configuration. -/
def step (cfg : Config) : Op → Except Err Config
  | .openOp creator campaign_id goal_amount deadline metadata_url =>
      openCampaign creator campaign_id goal_amount deadline metadata_url cfg
  | .fundOp donor addr amount => fund donor addr amount cfg
  | .releaseOp caller addr => release caller addr cfg

/-- Apply a sequence of Fund calls (donor, amount) in order; fails as a
whole as soon as one call fails. -/
def fundMany (addr : Addr) (ds : List (Nat × Nat)) (cfg : Config) :
    Except Err Config :=
  match ds with
  | [] => .ok cfg
  | (donor, amount) :: rest =>
    match fund donor addr amount cfg with
    | .ok cfg1 => fundMany addr rest cfg1
    | .error e => .error e

/-- Claim C7: a successful Open followed immediately by load at the
derived address returns a record whose amount_raised is 0 and whose
creator, campaign_id, goal_amount, deadline and metadata_url are exactly
the values supplied to Open. -/
theorem open_then_load (creator campaign_id goal_amount deadline : Nat)
    (metadata_url : String) (cfg cfg' : Config)
    (hok : openCampaign creator campaign_id goal_amount deadline metadata_url cfg
      = .ok cfg') :
    load (creator, campaign_id) cfg' =
      .ok { creator := creator, campaign_id := campaign_id,
            goal_amount := goal_amount, amount_raised := 0,
            deadline := deadline, metadata_url := metadata_url } := by
  unfold openCampaign at hok
  split at hok
  · exact absurd hok (by simp)
  · split at hok
    · exact absurd hok (by simp)
    · split at hok
      · exact absurd hok (by simp)
      · split at hok
        · exact absurd hok (by simp)
        · split at hok
          · exact absurd hok (by simp)
          · simp only [Except.ok.injEq] at hok
            subst hok
            simp [load, setRecord, setBal]

/-- Closed witness for open_then_load at a concrete configuration. -/
theorem open_then_load_witness :
    load (7, 3)
      (match openCampaign 7 3 50 20 "m"
          { records := fun _ => none, ledger := fun _ => 100, now := 10 } with
        | .ok c => c
        | .error _ =>
          { records := fun _ => none, ledger := fun _ => 100, now := 10 }) =
      .ok { creator := 7, campaign_id := 3, goal_amount := 50,
            amount_raised := 0, deadline := 20, metadata_url := "m" } :=
  open_then_load 7 3 50 20 "m"
    { records := fun _ => none, ledger := fun _ => 100, now := 10 } _ rfl

/-- Claim C1: when amount_raised has reached goal_amount (with
goal_amount > 0, as every record created by Open has) and the clock has
reached the deadline, a Release by the creator succeeds, moves the full
escrow balance to the creator, zeroes the escrow balance, and leaves
amount_raised = 0; and any later Release attempt on the record fails with
GoalNotReached, so Release is one-shot without an explicit flag. -/
theorem release_success_one_shot (cfg : Config) (addr : Addr) (r : Campaign)
    (hr : cfg.records addr = some r)
    (hgoal : r.goal_amount ≤ r.amount_raised)
    (hpos : 0 < r.goal_amount)
    (hdl : r.deadline ≤ cfg.now) :
    ∃ cfg', release r.creator addr cfg = .ok cfg'
      ∧ cfg'.ledger (.user r.creator) =
          cfg.ledger (.user r.creator) + cfg.ledger (.camp addr.1 addr.2)
      ∧ cfg'.ledger (.camp addr.1 addr.2) = 0
      ∧ cfg'.records addr = some { r with amount_raised := 0 }
      ∧ ∀ t, r.deadline ≤ t →
          release r.creator addr { cfg' with now := t } = .error .GoalNotReached := by
  refine ⟨setRecord (setBal (setBal cfg (.camp addr.1 addr.2) 0) (.user r.creator)
      ((setBal cfg (.camp addr.1 addr.2) 0).ledger (.user r.creator)
        + cfg.ledger (.camp addr.1 addr.2))) addr { r with amount_raised := 0 },
    ?_, ?_, ?_, ?_, ?_⟩
  · unfold release
    rw [hr]
    simp [Nat.not_lt.mpr hdl, Nat.not_lt.mpr hgoal]
  · simp [setRecord, setBal]
  · simp [setRecord, setBal]
  · simp [setRecord, setBal]
  · intro t ht
    unfold release
    simp [setRecord, setBal, Nat.not_lt.mpr ht, hpos]

/-- A concrete configuration holding one fully funded campaign whose
deadline has been reached, used to witness the release theorems. -/
def cfgFunded : Config :=
  { records := fun a => if a = (1, 2) then
      some { creator := 1, campaign_id := 2, goal_amount := 5,
             amount_raised := 5, deadline := 10, metadata_url := "u" }
      else none,
    ledger := fun acct => if acct = .user 1 then 50
      else if acct = .camp 1 2 then 5 else 0,
    now := 10 }

/-- Closed witness for release_success_one_shot at a concrete funded
campaign. -/
theorem release_success_one_shot_witness :
    ∃ cfg', release 1 (1, 2) cfgFunded = .ok cfg'
      ∧ cfg'.ledger (.user 1) =
          cfgFunded.ledger (.user 1) + cfgFunded.ledger (.camp 1 2)
      ∧ cfg'.ledger (.camp 1 2) = 0
      ∧ cfg'.records (1, 2) =
          some { creator := 1, campaign_id := 2, goal_amount := 5,
                 amount_raised := 0, deadline := 10, metadata_url := "u" }
      ∧ ∀ t, 10 ≤ t →
          release 1 (1, 2) { cfg' with now := t } = .error .GoalNotReached :=
  release_success_one_shot cfgFunded (1, 2)
    { creator := 1, campaign_id := 2, goal_amount := 5,
      amount_raised := 5, deadline := 10, metadata_url := "u" }
    rfl (by decide) (by decide) (by decide)

/-- Claim C3: with amount_raised strictly below goal_amount and the clock
at or past the deadline, a Release by the creator fails with
GoalNotReached; the error path produces no successor configuration, so
the record and every balance are untouched. -/
theorem release_goal_not_reached (cfg : Config) (addr : Addr) (r : Campaign)
    (hr : cfg.records addr = some r)
    (hlt : r.amount_raised < r.goal_amount)
    (hdl : r.deadline ≤ cfg.now) :
    release r.creator addr cfg = .error .GoalNotReached := by
  unfold release
  rw [hr]
  simp [Nat.not_lt.mpr hdl, hlt]

/-- Closed witness for release_goal_not_reached at a concrete underfunded
campaign. -/
theorem release_goal_not_reached_witness :
    release 1 (1, 2)
      { records := fun a => if a = (1, 2) then
          some { creator := 1, campaign_id := 2, goal_amount := 5,
                 amount_raised := 3, deadline := 10, metadata_url := "u" }
          else none,
        ledger := fun _ => 0, now := 10 } = .error .GoalNotReached :=
  release_goal_not_reached _ (1, 2)
    { creator := 1, campaign_id := 2, goal_amount := 5,
      amount_raised := 3, deadline := 10, metadata_url := "u" }
    rfl (by decide) (by decide)

/-- Claim C4: a Release call by any identity other than the record's
creator fails with Unauthorized, whatever the deadline and the raised
amount are. -/
theorem release_unauthorized (cfg : Config) (addr : Addr) (r : Campaign)
    (caller : Nat) (hr : cfg.records addr = some r)
    (hne : caller ≠ r.creator) :
    release caller addr cfg = .error .Unauthorized := by
  unfold release
  rw [hr]
  simp [hne]

/-- Closed witness for release_unauthorized: a stranger calls Release on
a fully funded, expired campaign and is still rejected. -/
theorem release_unauthorized_witness :
    release 9 (1, 2)
      { records := fun a => if a = (1, 2) then
          some { creator := 1, campaign_id := 2, goal_amount := 5,
                 amount_raised := 5, deadline := 10, metadata_url := "u" }
          else none,
        ledger := fun _ => 0, now := 10 } = .error .Unauthorized :=
  release_unauthorized _ (1, 2)
    { creator := 1, campaign_id := 2, goal_amount := 5,
      amount_raised := 5, deadline := 10, metadata_url := "u" }
    9 rfl (by decide)

/-- Claim C5: a Fund call arriving when the clock has reached or passed
the record's deadline fails with CampaignExpired; the error path produces
no successor configuration, so amount_raised and every Fund Ledger
balance are untouched. -/
theorem fund_after_deadline_expired (cfg : Config) (addr : Addr)
    (r : Campaign) (donor amount : Nat)
    (hr : cfg.records addr = some r)
    (hdl : r.deadline ≤ cfg.now) :
    fund donor addr amount cfg = .error .CampaignExpired := by
  unfold fund
  rw [hr]
  simp [hdl]

/-- Closed witness for fund_after_deadline_expired at a concrete expired
campaign. -/
theorem fund_after_deadline_expired_witness :
    fund 4 (1, 2) 7
      { records := fun a => if a = (1, 2) then
          some { creator := 1, campaign_id := 2, goal_amount := 5,
                 amount_raised := 3, deadline := 10, metadata_url := "u" }
          else none,
        ledger := fun _ => 100, now := 11 } = .error .CampaignExpired :=
  fund_after_deadline_expired _ (1, 2)
    { creator := 1, campaign_id := 2, goal_amount := 5,
      amount_raised := 3, deadline := 10, metadata_url := "u" }
    4 7 rfl (by decide)

/-- Claim C6: the increment of amount_raised is overflow-checked: a Fund
call with positive amount on a live campaign whose amount_raised + amount
exceeds the unsigned 64-bit range is rejected with ArithmeticOverflow,
and since the error path produces no successor configuration,
amount_raised does not wrap modulo 2 ^ 64. -/
theorem fund_overflow_rejected (cfg : Config) (addr : Addr) (r : Campaign)
    (donor amount : Nat)
    (hr : cfg.records addr = some r)
    (hlive : cfg.now < r.deadline)
    (hpos : 0 < amount)
    (hov : U64_MAX < r.amount_raised + amount) :
    fund donor addr amount cfg = .error .ArithmeticOverflow := by
  unfold fund
  rw [hr]
  simp [Nat.not_le.mpr hlive, Nat.pos_iff_ne_zero.mp hpos, hov]

/-- Closed witness for fund_overflow_rejected: a donation of 2 to a
record already holding u64-max minus 1 is rejected. -/
theorem fund_overflow_rejected_witness :
    fund 4 (1, 2) 2
      { records := fun a => if a = (1, 2) then
          some { creator := 1, campaign_id := 2, goal_amount := 5,
                 amount_raised := 2 ^ 64 - 2, deadline := 10, metadata_url := "u" }
          else none,
        ledger := fun _ => 100, now := 3 } = .error .ArithmeticOverflow :=
  fund_overflow_rejected _ (1, 2)
    { creator := 1, campaign_id := 2, goal_amount := 5,
      amount_raised := 2 ^ 64 - 2, deadline := 10, metadata_url := "u" }
    4 2 rfl (by decide) (by decide) (by decide)

/-- A successful Fund call rewrites the funded record by adding the
donated amount to amount_raised and leaves every other record alone. -/
theorem fund_ok_records (donor amount : Nat) (addr : Addr) (cfg cfg1 : Config)
    (r : Campaign) (hr : cfg.records addr = some r)
    (hfund : fund donor addr amount cfg = .ok cfg1) :
    cfg1.records addr = some { r with amount_raised := r.amount_raised + amount } := by
  unfold fund at hfund
  rw [hr] at hfund
  split at hfund
  · exact absurd hfund (by simp)
  · rename_i r2 heq
    injection heq with heq
    subst heq
    split at hfund
    · exact absurd hfund (by simp)
    · split at hfund
      · exact absurd hfund (by simp)
      · split at hfund
        · exact absurd hfund (by simp)
        · split at hfund
          · exact absurd hfund (by simp)
          · simp only [Except.ok.injEq] at hfund
            subst hfund
            simp [setRecord, setBal]

/-- Over a whole sequence of successful Fund calls, amount_raised grows
by exactly the sum of the donated amounts. -/
theorem fundMany_raised (addr : Addr) (ds : List (Nat × Nat)) :
    ∀ (cfg cfg' : Config) (r : Campaign),
      fundMany addr ds cfg = .ok cfg' → cfg.records addr = some r →
      ∃ r', cfg'.records addr = some r'
        ∧ r'.amount_raised = r.amount_raised + (ds.map Prod.snd).sum := by
  induction ds with
  | nil =>
    intro cfg cfg' r hok hr
    simp only [fundMany, Except.ok.injEq] at hok
    subst hok
    exact ⟨r, hr, by simp⟩
  | cons d rest ih =>
    intro cfg cfg' r hok hr
    obtain ⟨donor, amount⟩ := d
    unfold fundMany at hok
    cases hfund : fund donor addr amount cfg with
    | error e => rw [hfund] at hok; exact absurd hok (by simp)
    | ok cfg1 =>
      rw [hfund] at hok
      obtain ⟨r', hr', hsum⟩ :=
        ih cfg1 cfg' _ hok (fund_ok_records donor amount addr cfg cfg1 r hr hfund)
      refine ⟨r', hr', ?_⟩
      simp only [List.map_cons, List.sum_cons] at hsum ⊢
      omega

/-- Claim C2: starting from a record with amount_raised = 0, after any
sequence of successful Fund calls with amounts a1..an the record's
amount_raised equals a1 + ... + an, and any permutation of the sequence
that also succeeds yields the same total. -/
theorem fund_total_is_sum_order_independent (cfg cfg' : Config)
    (addr : Addr) (r r' : Campaign) (ds : List (Nat × Nat))
    (hr : cfg.records addr = some r) (h0 : r.amount_raised = 0)
    (hok : fundMany addr ds cfg = .ok cfg')
    (hr' : cfg'.records addr = some r') :
    r'.amount_raised = (ds.map Prod.snd).sum
    ∧ ∀ (ds2 : List (Nat × Nat)) (cfg2 : Config) (r2 : Campaign),
        ds2.Perm ds → fundMany addr ds2 cfg = .ok cfg2 →
        cfg2.records addr = some r2 →
        r2.amount_raised = r'.amount_raised := by
  obtain ⟨ra, hra, hsa⟩ := fundMany_raised addr ds cfg cfg' r hok hr
  rw [hra] at hr'
  injection hr' with heqa
  have hmain : r'.amount_raised = (ds.map Prod.snd).sum := by
    rw [← heqa, hsa, h0, Nat.zero_add]
  refine ⟨hmain, ?_⟩
  intro ds2 cfg2 r2 hperm hok2 hrec2
  obtain ⟨rb, hrb, hsb⟩ := fundMany_raised addr ds2 cfg cfg2 r hok2 hr
  rw [hrb] at hrec2
  injection hrec2 with heqb
  rw [← heqb, hsb, h0, Nat.zero_add, hmain]
  exact (hperm.map Prod.snd).sum_eq

/-- A fresh concrete campaign used to witness the donation-sum claim. -/
def cfgFresh : Config :=
  { records := fun a => if a = (1, 2) then
      some { creator := 1, campaign_id := 2, goal_amount := 9,
             amount_raised := 0, deadline := 10, metadata_url := "u" }
      else none,
    ledger := fun _ => 100, now := 1 }

/-- The configuration after two concrete successful donations. -/
def cfgFreshAfter : Config :=
  match fundMany (1, 2) [(4, 3), (5, 2)] cfgFresh with
  | .ok c => c
  | .error _ => cfgFresh

/-- Closed witness for fund_total_is_sum_order_independent on two
concrete donations of 3 and 2. -/
theorem fund_total_is_sum_order_independent_witness :
    (5 : Nat) = (([(4, 3), (5, 2)] : List (Nat × Nat)).map Prod.snd).sum
    ∧ ∀ (ds2 : List (Nat × Nat)) (cfg2 : Config) (r2 : Campaign),
        ds2.Perm [(4, 3), (5, 2)] → fundMany (1, 2) ds2 cfgFresh = .ok cfg2 →
        cfg2.records (1, 2) = some r2 →
        r2.amount_raised = 5 :=
  fund_total_is_sum_order_independent cfgFresh cfgFreshAfter (1, 2)
    { creator := 1, campaign_id := 2, goal_amount := 9,
      amount_raised := 0, deadline := 10, metadata_url := "u" }
    { creator := 1, campaign_id := 2, goal_amount := 9,
      amount_raised := 5, deadline := 10, metadata_url := "u" }
    [(4, 3), (5, 2)] rfl rfl rfl rfl

/-- Claim C8: across every lifecycle operation, a record's amount_raised
never decreases, with the single exception of a successful Release of
that record, which resets it to 0 in the same atomic transition that
debits the campaign's escrow balance (equal to amount_raised on every
reachable, phantom-credit-free configuration, taken as the hypothesis
hbal) and credits that exact amount to the creator. -/
theorem amount_raised_monotone_unless_release (cfg cfg' : Config) (op : Op)
    (addr : Addr) (r r' : Campaign)
    (hbal : cfg.ledger (.camp addr.1 addr.2) = r.amount_raised)
    (hstep : step cfg op = .ok cfg')
    (hr : cfg.records addr = some r)
    (hr' : cfg'.records addr = some r') :
    r.amount_raised ≤ r'.amount_raised
    ∨ (r'.amount_raised = 0
       ∧ cfg'.ledger (.user r.creator) =
           cfg.ledger (.user r.creator) + r.amount_raised
       ∧ cfg'.ledger (.camp addr.1 addr.2) = 0
       ∧ ∃ caller, op = .releaseOp caller addr) := by
  cases op with
  | openOp creator campaign_id goal_amount deadline metadata_url =>
    left
    simp only [step] at hstep
    unfold openCampaign at hstep
    split at hstep
    · exact absurd hstep (by simp)
    · split at hstep
      · exact absurd hstep (by simp)
      · split at hstep
        · exact absurd hstep (by simp)
        · split at hstep
          · exact absurd hstep (by simp)
          · rename_i hnone
            split at hstep
            · exact absurd hstep (by simp)
            · simp only [Except.ok.injEq] at hstep
              subst hstep
              simp only [setRecord, setBal] at hr'
              by_cases haddr : addr = (creator, campaign_id)
              · rw [haddr, hnone] at hr
                exact absurd hr (by simp)
              · rw [if_neg haddr] at hr'
                rw [hr] at hr'
                injection hr' with heq
                rw [heq]
  | fundOp donor addr2 amount =>
    left
    simp only [step] at hstep
    unfold fund at hstep
    split at hstep
    · exact absurd hstep (by simp)
    · rename_i r2 hr2
      split at hstep
      · exact absurd hstep (by simp)
      · split at hstep
        · exact absurd hstep (by simp)
        · split at hstep
          · exact absurd hstep (by simp)
          · split at hstep
            · exact absurd hstep (by simp)
            · simp only [Except.ok.injEq] at hstep
              subst hstep
              simp only [setRecord, setBal] at hr'
              by_cases haddr : addr = addr2
              · subst haddr
                rw [hr] at hr2
                injection hr2 with hr2
                subst hr2
                rw [if_pos rfl] at hr'
                injection hr' with heq
                rw [← heq]
                exact Nat.le_add_right _ _
              · rw [if_neg haddr] at hr'
                rw [hr] at hr'
                injection hr' with heq
                rw [heq]
  | releaseOp caller addr2 =>
    simp only [step] at hstep
    unfold release at hstep
    split at hstep
    · exact absurd hstep (by simp)
    · rename_i r2 hr2
      split at hstep
      · exact absurd hstep (by simp)
      · split at hstep
        · exact absurd hstep (by simp)
        · split at hstep
          · exact absurd hstep (by simp)
          · simp only [Except.ok.injEq] at hstep
            subst hstep
            by_cases haddr : addr = addr2
            · subst haddr
              rw [hr] at hr2
              injection hr2 with hr2
              subst hr2
              right
              have hrec : ∀ cfg0 : Config,
                  (setRecord cfg0 addr { r with amount_raised := 0 }).records addr
                    = some { r with amount_raised := 0 } := by
                intro cfg0
                simp [setRecord]
              rw [hrec] at hr'
              injection hr' with heq
              refine ⟨by rw [← heq], ?_, ?_, caller, rfl⟩
              · simp [setRecord, setBal, hbal]
              · simp [setRecord, setBal]
            · left
              simp only [setRecord, setBal] at hr'
              rw [if_neg haddr] at hr'
              rw [hr] at hr'
              injection hr' with heq
              rw [heq]

/-- The configuration reached from cfgFunded by the creator's Release. -/
def cfgReleased : Config :=
  match step cfgFunded (.releaseOp 1 (1, 2)) with
  | .ok c => c
  | .error _ => cfgFunded

/-- Closed witness for amount_raised_monotone_unless_release on a
concrete successful Release step. -/
theorem amount_raised_monotone_unless_release_witness :
    (5 : Nat) ≤ (0 : Nat)
    ∨ ((0 : Nat) = 0
       ∧ cfgReleased.ledger (.user 1) = cfgFunded.ledger (.user 1) + 5
       ∧ cfgReleased.ledger (.camp 1 2) = 0
       ∧ ∃ caller, Op.releaseOp 1 (1, 2) = .releaseOp caller (1, 2)) :=
  amount_raised_monotone_unless_release cfgFunded cfgReleased
    (.releaseOp 1 (1, 2)) (1, 2)
    { creator := 1, campaign_id := 2, goal_amount := 5,
      amount_raised := 5, deadline := 10, metadata_url := "u" }
    { creator := 1, campaign_id := 2, goal_amount := 5,
      amount_raised := 0, deadline := 10, metadata_url := "u" }
    rfl rfl rfl rfl

/-- The bytes of Buffer.from applied to the fixed seed string, ASCII
codes of the eight characters of the word used as the campaign seed tag
(from src/solraiser/tests/solraiser.ts and src/unnamed/part_000). -/
def campaignSeedTag : List Nat := [99, 97, 109, 112, 97, 105, 103, 110]

/-- Embeds BN.toArrayLike(Buffer, "le", 8): the 8 little-endian bytes of
a 64-bit unsigned integer. -/
def toArrayLikeLe8 (n : Nat) : List Nat :=
  (List.range 8).map fun i => n / 256 ^ i % 256

/-- Embeds getCampaignAddress from src/solraiser/tests/solraiser.ts: the
seed list [seed tag bytes, creator public-key bytes, campaign id as 8
little-endian bytes] passed with the program id to the host address
derivation findProgramAddressSync, abstracted here as a function
argument. -/
def getCampaignAddress {A : Type} (findProgramAddressSync : List (List Nat) → Nat → A)
    (creatorKey : List Nat) (campaignsId : Nat) (programId : Nat) : A :=
  findProgramAddressSync [campaignSeedTag, creatorKey, toArrayLikeLe8 campaignsId]
    programId

/-- Embeds the PDA derivation inside createCampaign from
src/unnamed/part_000 (the frontend service): the same seed list [seed
tag bytes, creator public-key bytes, campaign id as 8 little-endian
bytes] passed with the program id to findProgramAddressSync. -/
def createCampaignPda {A : Type} (findProgramAddressSync : List (List Nat) → Nat → A)
    (creatorPublicKey : List Nat) (campaignId : Nat) (programId : Nat) : A :=
  findProgramAddressSync [campaignSeedTag, creatorPublicKey, toArrayLikeLe8 campaignId]
    programId

/-- Claim C10: the frontend's createCampaign and the test suite's
getCampaignAddress compute the campaign address by the very same
function: identical seed list, identical id serialization, identical
program id, identical host derivation call. -/
theorem frontend_test_derivation_agree {A : Type}
    (findProgramAddressSync : List (List Nat) → Nat → A)
    (creatorKey : List Nat) (campaignId programId : Nat) :
    createCampaignPda findProgramAddressSync creatorKey campaignId programId
      = getCampaignAddress findProgramAddressSync creatorKey campaignId programId :=
  rfl

/-- Recover a number from its little-endian byte list. -/
def leDecode : List Nat → Nat
  | [] => 0
  | b :: bs => b + 256 * leDecode bs

/-- The 8-byte little-endian serialization is lossless below 2 ^ 64. -/
theorem leDecode_toArrayLikeLe8 (n : Nat) (hn : n < 2 ^ 64) :
    leDecode (toArrayLikeLe8 n) = n := by
  have h8 : List.range 8 = [0, 1, 2, 3, 4, 5, 6, 7] := rfl
  simp only [toArrayLikeLe8, h8, List.map_cons, List.map_nil, leDecode]
  norm_num
  omega

/-- Claim C9: the implemented derivation hashes the fixed seed tag, the
creator's 32 public-key bytes and the campaign id as 8 little-endian
bytes under the program id; it is pure (a function, so two calls on the
same pair agree definitionally), and the seed material determines the
(creator, campaign_id) pair uniquely: whenever the host derivation is
collision-free on seed lists (the cryptographic guarantee the spec
assumes), equal derived addresses force equal creators and equal
campaign ids. -/
theorem derive_address_pure_collision_free {A : Type}
    (findProgramAddressSync : List (List Nat) → Nat → A) (programId : Nat)
    (hinj : ∀ s1 s2, findProgramAddressSync s1 programId
      = findProgramAddressSync s2 programId → s1 = s2)
    (c1 c2 : List Nat) (i1 i2 : Nat)
    (hi1 : i1 < 2 ^ 64) (hi2 : i2 < 2 ^ 64)
    (heq : getCampaignAddress findProgramAddressSync c1 i1 programId
      = getCampaignAddress findProgramAddressSync c2 i2 programId) :
    c1 = c2 ∧ i1 = i2 := by
  have hs := hinj _ _ heq
  injection hs with h1 hs
  injection hs with hc hs
  injection hs with hb hs
  refine ⟨hc, ?_⟩
  have := congrArg leDecode hb
  rwa [leDecode_toArrayLikeLe8 i1 hi1, leDecode_toArrayLikeLe8 i2 hi2] at this

/-- Closed witness for derive_address_pure_collision_free, instantiating
the host derivation with the identity-like pairing function. -/
theorem derive_address_pure_collision_free_witness :
    List.replicate 32 7 = List.replicate 32 7 ∧ (3 : Nat) = 3 :=
  derive_address_pure_collision_free
    (fun s p => (s, p)) 11
    (fun s1 s2 h => by simpa using congrArg Prod.fst h)
    (List.replicate 32 7) (List.replicate 32 7) 3 3
    (by norm_num) (by norm_num) rfl

end SolRaiser
